import Mathlib

/-!
Shallow embedding of the WarpCat backend's trait-selection, SVG-composition
and mint-calldata code (src/index.js and the unnamed server variants).

JavaScript numbers that feed `Math.floor` are modelled exactly as rationals
(ℚ); for the concrete divisors and list lengths used by the code the float
rounding of the runtime never moves a value across an integer boundary, so
the rational floor agrees with `Math.floor`.  Exceptions are modelled as
`none`.  The SHA-256 digest produced by Node's `crypto` library is external
to the repository, so every digest-driven function takes the 64-character
lowercase hex digest as an explicit argument.
-/

/-- Model of the character class accepted by JavaScript `parseInt(_, 16)`:
ASCII decimal digits plus `a`-`f` and `A`-`F`. -/
def jsIsHexDigit (c : Char) : Bool :=
  (48 ≤ c.toNat && c.toNat ≤ 57) || (97 ≤ c.toNat && c.toNat ≤ 102) ||
    (65 ≤ c.toNat && c.toNat ≤ 70)

/-- Numeric value of a hex digit character, as `parseInt` assigns it. -/
def hexCharVal (c : Char) : Nat :=
  if c.toNat ≤ 57 then c.toNat - 48
  else if c.toNat ≤ 70 then c.toNat - 55
  else c.toNat - 87

/-- Model of JavaScript `parseInt(s, 16)` on strings without leading
whitespace, sign or `0x` marker (the only shapes the code feeds it): the
longest leading run of hex digits is evaluated; no digits at all gives NaN,
modelled as `none`. -/
def parseIntHex (s : String) : Option Nat :=
  if (s.data.takeWhile jsIsHexDigit).isEmpty then none
  else some ((s.data.takeWhile jsIsHexDigit).foldl (fun a c => 16 * a + hexCharVal c) 0)

/-- Digits of one radix (2, 8, 10 or 16) for the `BigInt(string)` grammar:
all characters must be digits of the radix and there must be at least one. -/
def radixDigitsVal (base : Nat) (l : List Char) : Option Nat :=
  if l.isEmpty then none
  else if l.all (fun c => jsIsHexDigit c && decide (hexCharVal c < base)) then
    some (l.foldl (fun a c => base * a + hexCharVal c) 0)
  else none

/-- ASCII whitespace stripped by JavaScript before parsing a numeric
string (the Unicode space classes never occur in this backend's inputs). -/
def jsIsSpace (c : Char) : Bool :=
  c = ' ' || c = '\t' || c = '\n' || c = '\r'

/-- Model of JavaScript `BigInt(string)`: the trimmed empty string is 0,
`0x`/`0o`/`0b` prefixes select a radix (no sign allowed there), otherwise
an optional sign followed by decimal digits; anything else throws a
SyntaxError, modelled as `none`. -/
def parseBigInt (s : String) : Option Int :=
  match ((s.data.dropWhile jsIsSpace).reverse.dropWhile jsIsSpace).reverse with
  | [] => some 0
  | '0' :: 'x' :: ds => (radixDigitsVal 16 ds).map Int.ofNat
  | '0' :: 'X' :: ds => (radixDigitsVal 16 ds).map Int.ofNat
  | '0' :: 'o' :: ds => (radixDigitsVal 8 ds).map Int.ofNat
  | '0' :: 'O' :: ds => (radixDigitsVal 8 ds).map Int.ofNat
  | '0' :: 'b' :: ds => (radixDigitsVal 2 ds).map Int.ofNat
  | '0' :: 'B' :: ds => (radixDigitsVal 2 ds).map Int.ofNat
  | '+' :: ds => (radixDigitsVal 10 ds).map Int.ofNat
  | '-' :: ds => (radixDigitsVal 10 ds).map (fun n : Nat => -(n : Int))
  | ds => (radixDigitsVal 10 ds).map Int.ofNat

/-- Whether a string parses (via `BigInt`) as a non-negative integer. -/
def parsesAsNonNegInt (s : String) : Bool :=
  match parseBigInt s with
  | some n => decide (0 ≤ n)
  | none => false

/-- JavaScript template-literal coercion of a possibly-undefined string. -/
def jsStr : Option String → String
  | some s => s
  | none => "undefined"

/-- `h.slice(i, i + 8)` on a hex digest string. -/
def chunkAt (h : String) (i : Nat) : String :=
  String.mk ((h.data.drop i).take 8)

/-- Cursor of `prngFromFid`'s closure before its `k`-th call: starts at 0
and advances by `i = (i + 8) % h.length` after every call
(src/index.js lines 391-399). -/
def rngIndex (h : String) : Nat → Nat
  | 0 => 0
  | Nat.succ k => (rngIndex h k + 8) % h.length

/-- Integer numerator of the `k`-th draw of the generator built by
`prngFromFid`: `parseInt(chunk || '0', 16)` where `chunk` is the
8-hex-character window of the digest at the current cursor. -/
def rngNat (h : String) (k : Nat) : Option Nat :=
  parseIntHex
    (if (chunkAt h (rngIndex h k)).isEmpty then "0" else chunkAt h (rngIndex h k))

/-- Value returned by the `k`-th call of the generator built by
`prngFromFid`: `parseInt(chunk || '0', 16) / 0xffffffff`. -/
def rngVal (h : String) (k : Nat) : Option ℚ :=
  (rngNat h k).map (fun v : Nat => (v : ℚ) / 4294967295)

/-- `pickOne(rng, arr)` = `arr[Math.floor(rng() * arr.length)]`
(src/index.js line 400).  A NaN draw or an out-of-range index yields
JavaScript `undefined`, modelled as `none`. -/
def pickOne {α : Type} (r? : Option ℚ) (arr : List α) : Option α :=
  r?.bind fun r =>
    let i : Int := ⌊r * (arr.length : ℚ)⌋
    if i < 0 then none else arr.get? i.toNat

/-- `randFrom(arr, seed)` = `arr[Number(BigInt(seed) % BigInt(arr.length))]`
(src/unnamed/part_001 lines 61-65).  The outer `none` models a thrown
exception (`BigInt(seed)` raises SyntaxError on a non-numeric seed, and
`% 0n` raises RangeError); `some none` models an `undefined` array read
(negative remainder). -/
def randFrom (arr : List String) (seed : String) : Option (Option String) :=
  match parseBigInt seed with
  | none => none
  | some n =>
    if arr.length = 0 then none
    else
      let j := Int.tmod n (arr.length : Int)
      if j < 0 then some none else some (arr.get? j.toNat)

/-- A 64-character lowercase-hex SHA-256 digest, as produced by
`crypto.createHash('sha256').update(String(fid)).digest('hex')`. -/
def IsHexDigest (h : String) : Prop :=
  h.length = 64 ∧ ∀ c ∈ h.data, (jsIsHexDigit c = true ∧ ¬ (65 ≤ c.toNat ∧ c.toNat ≤ 70))

instance (h : String) : Decidable (IsHexDigest h) := by
  unfold IsHexDigest; infer_instance

/-! ### renderWarpCatSVG (src/index.js lines 403-567)

Color palettes, trait tables and the SVG fragments of the generative cat.
The source's local constants `W = 1200`, `H = 630`, `y = 340`,
`leftPupilX = 520`, `rightPupilX = 680` are inlined into the literals. -/

structure Palette where
  bg1 : String
  bg2 : String
  accent : String
deriving DecidableEq, Repr

def palettes : List Palette :=
  [⟨"#2e026d", "#8b5cf6", "#ffd166"⟩,
   ⟨"#1b1b3a", "#6a00f4", "#f5d90a"⟩,
   ⟨"#190b28", "#7c3aed", "#f59e0b"⟩,
   ⟨"#111827", "#8b5cf6", "#fbbf24"⟩,
   ⟨"#201a31", "#9333ea", "#fde047"⟩]

def eyeStyles : List String := ["normal", "sleepy", "sharp"]

def glassesKinds : List String := ["none", "round", "visor", "aviator"]

def hats : List String := ["none", "beanie", "cap", "headset"]

def necks : List String := ["none", "scarf", "chain"]

def furs : List String := ["short", "smooth", "long"]

/-- The per-category picks of `renderWarpCatSVG`'s `trait` object.  Each
field is `undefined` (`none`) when the draw index falls out of range. -/
structure WarpTraits where
  eyes : Option String
  glasses : Option String
  hat : Option String
  neck : Option String
  fur : Option String
deriving DecidableEq, Repr

/-- Draw order of `prngFromFid`'s generator inside `renderWarpCatSVG`:
palette first, then eyes, glasses, hat, neck, fur. -/
def selectTraitsFromDigest (h : String) : WarpTraits :=
  { eyes := pickOne (rngVal h 1) eyeStyles
    glasses := pickOne (rngVal h 2) glassesKinds
    hat := pickOne (rngVal h 3) hats
    neck := pickOne (rngVal h 4) necks
    fur := pickOne (rngVal h 5) furs }

def paletteFromDigest (h : String) : Option Palette :=
  pickOne (rngVal h 0) palettes

/-- The resolved per-identifier selection: chosen palette plus traits. -/
structure Selection where
  pal : Option Palette
  traits : WarpTraits
deriving DecidableEq, Repr

def selectionFromDigest (h : String) : Selection :=
  ⟨paletteFromDigest h, selectTraitsFromDigest h⟩

def EARS : String :=
  "\n    <path d=\"M340,210 L420,80 L460,220 Z\" fill=\"#2b2b2b\" stroke=\"#111\" stroke-width=\"6\"/>\n    <path d=\"M760,210 L680,80 L640,220 Z\" fill=\"#2b2b2b\" stroke=\"#111\" stroke-width=\"6\"/>\n  "

def HEAD : String :=
  "\n    <ellipse cx=\"600\" cy=\"340\" rx=\"260\" ry=\"210\" fill=\"#2f2f2f\" stroke=\"#111\" stroke-width=\"8\"/>\n  "

def eyesBlock (trait : WarpTraits) : String :=
  let eyeBase :=
    "\n      <ellipse cx=\"520\" cy=\"340\" rx=\"60\" ry=\"40\" fill=\"#ffffff\"/>\n      <ellipse cx=\"680\" cy=\"340\" rx=\"60\" ry=\"40\" fill=\"#ffffff\"/>\n    "
  let eyeBase := eyeBase ++
    (if trait.eyes = some "sleepy" then
      "\n        <path d=\"M460 340 Q520 360 580 340\" stroke=\"#111\" stroke-width=\"6\" fill=\"none\"/>\n        <path d=\"M620 340 Q680 360 740 340\" stroke=\"#111\" stroke-width=\"6\" fill=\"none\"/>\n      "
    else "")
  let eyeBase := eyeBase ++
    (if trait.eyes = some "sharp" then
      "\n        <path d=\"M455 325 L585 335\" stroke=\"#111\" stroke-width=\"6\"/>\n        <path d=\"M615 335 L745 325\" stroke=\"#111\" stroke-width=\"6\"/>\n      "
    else "")
  let pupils :=
    "\n      <circle cx=\"520\" cy=\"340\" r=\"14\" fill=\"#111\"/>\n      <circle cx=\"680\" cy=\"340\" r=\"14\" fill=\"#111\"/>\n    "
  eyeBase ++ pupils

def glassesBlock (pal : Palette) (trait : WarpTraits) : String :=
  if trait.glasses = some "none" then ""
  else if trait.glasses = some "round" then
    "\n        <circle cx=\"520\" cy=\"340\" r=\"70\" fill=\"none\" stroke=\"" ++ pal.accent ++ "\" stroke-width=\"10\"/>\n        <circle cx=\"680\" cy=\"340\" r=\"70\" fill=\"none\" stroke=\"" ++ pal.accent ++ "\" stroke-width=\"10\"/>\n        <rect x=\"520\" y=\"336\" width=\"160\" height=\"8\" fill=\"" ++ pal.accent ++ "\"/>\n      "
  else if trait.glasses = some "visor" then
    "\n        <rect x=\"460\" y=\"300\" width=\"280\" height=\"80\" rx=\"20\" fill=\"" ++ pal.accent ++ "\" opacity=\"0.85\"/>\n        <rect x=\"445\" y=\"320\" width=\"20\" height=\"14\" fill=\"" ++ pal.accent ++ "\"/>\n        <rect x=\"740\" y=\"320\" width=\"20\" height=\"14\" fill=\"" ++ pal.accent ++ "\"/>\n      "
  else if trait.glasses = some "aviator" then
    "\n        <path d=\"M460,320 Q520,280 580,320 Q520,360 460,320 Z\" fill=\"none\" stroke=\"" ++ pal.accent ++ "\" stroke-width=\"8\"/>\n        <path d=\"M740,320 Q680,280 620,320 Q680,360 740,320 Z\" fill=\"none\" stroke=\"" ++ pal.accent ++ "\" stroke-width=\"8\"/>\n        <rect x=\"580\" y=\"330\" width=\"40\" height=\"6\" fill=\"" ++ pal.accent ++ "\"/>\n      "
  else ""

def hatBlock (pal : Palette) (trait : WarpTraits) : String :=
  if trait.hat = some "none" then ""
  else if trait.hat = some "beanie" then
    "\n        <path d=\"M420,220 Q600,120 780,220 L780,250 Q600,210 420,250 Z\" fill=\"#1f2937\" stroke=\"#111\" stroke-width=\"6\"/>\n        <rect x=\"420\" y=\"240\" width=\"360\" height=\"30\" fill=\"" ++ pal.accent ++ "\" />\n      "
  else if trait.hat = some "cap" then
    "\n        <path d=\"M420,230 Q600,150 780,230 L780,250 Q600,210 420,250 Z\" fill=\"#111827\" stroke=\"#111\" stroke-width=\"6\"/>\n        <path d=\"M740,250 Q820,270 840,290 Q760,290 720,270 Z\" fill=\"#1f2937\"/>\n      "
  else if trait.hat = some "headset" then
    "\n        <path d=\"M430,260 Q600,120 770,260\" stroke=\"" ++ pal.accent ++ "\" stroke-width=\"22\" fill=\"none\"/>\n        <rect x=\"410\" y=\"270\" width=\"50\" height=\"90\" rx=\"10\" fill=\"#2b2b2b\" stroke=\"#111\" stroke-width=\"4\"/>\n        <rect x=\"740\" y=\"270\" width=\"50\" height=\"90\" rx=\"10\" fill=\"#2b2b2b\" stroke=\"#111\" stroke-width=\"4\"/>\n      "
  else ""

def neckBlock (pal : Palette) (trait : WarpTraits) : String :=
  if trait.neck = some "none" then ""
  else if trait.neck = some "scarf" then
    "\n        <path d=\"M460,460 Q600,520 740,460 L720,500 Q600,540 480,500 Z\" fill=\"" ++ pal.accent ++ "\" stroke=\"#111\" stroke-width=\"6\"/>\n      "
  else if trait.neck = some "chain" then
    "\n        <path d=\"M480,470 Q600,520 720,470\" stroke=\"" ++ pal.accent ++ "\" stroke-width=\"10\" fill=\"none\"/>\n        <path d=\"M520,490 Q600,540 680,490\" stroke=\"" ++ pal.accent ++ "\" stroke-width=\"10\" fill=\"none\" opacity=\"0.7\"/>\n      "
  else ""

def furDecor (trait : WarpTraits) : String :=
  if trait.fur = some "long" then
    "<path d=\"M360,360 Q600,600 840,360\" stroke=\"#3b3b3b\" stroke-width=\"10\" fill=\"none\" opacity=\"0.5\"/>"
  else if trait.fur = some "smooth" then
    "<path d=\"M380,380 Q600,560 820,380\" stroke=\"#3b3b3b\" stroke-width=\"6\" fill=\"none\" opacity=\"0.4\"/>"
  else ""

def renderTitleOpen : String :=
  "\n\n    <!-- Title -->\n    <text x=\"50%\" y=\"80\" text-anchor=\"middle\" fill=\"#ffffff\" font-family=\"Arial, Helvetica, sans-serif\" font-size=\"44\" opacity=\"0.9\">\n      WarpCat • FID "

def renderTitleClose : String :=
  "\n    </text>\n  </svg>"

/-- Everything of the returned SVG document before the title overlay. -/
def renderLayers (pal : Palette) (trait : WarpTraits) : String :=
  "\n  <svg xmlns=\"http://www.w3.org/2000/svg\" width=\"1200\" height=\"630\">\n    <defs>\n      <linearGradient id=\"bg\" x1=\"0\" y1=\"0\" x2=\"1\" y2=\"1\">\n        <stop offset=\"0%\" stop-color=\"" ++ pal.bg1 ++ "\"/>\n        <stop offset=\"100%\" stop-color=\"" ++ pal.bg2 ++ "\"/>\n      </linearGradient>\n    </defs>\n    <rect width=\"100%\" height=\"100%\" fill=\"url(#bg)\"/>\n    <!-- Neon grid / aura -->\n    <g opacity=\"0.20\" stroke=\"#ffffff\">\n      <path d=\"M0 540 L1200 540\" />\n      <path d=\"M0 480 L1200 480\" />\n      <path d=\"M0 420 L1200 420\" />\n    </g>\n\n    " ++
    EARS ++ "\n    " ++ HEAD ++ "\n    " ++ furDecor trait ++ "\n    " ++
    eyesBlock trait ++ "\n    " ++ glassesBlock pal trait ++ "\n    " ++
    hatBlock pal trait ++ "\n    " ++ neckBlock pal trait

def renderDoc (pal : Palette) (trait : WarpTraits) (fid : String) : String :=
  renderLayers pal trait ++ renderTitleOpen ++ fid ++ renderTitleClose

/-- `renderWarpCatSVG(fid)` with the SHA-256 digest of `String(fid)` passed
explicitly.  When the palette draw is out of range (`pal` is `undefined`)
the first `pal.bg1` access raises a TypeError, modelled as `none`. -/
def renderWarpCatSVGFromDigest (h : String) (fid : String) : Option String :=
  match selectionFromDigest h with
  | ⟨none, _⟩ => none
  | ⟨some pal, trait⟩ => some (renderDoc pal trait fid)

/-! ### ensureAsset / buildSvg (src/unnamed/part_001 lines 61-119)

The filesystem under `assets/` is modelled as a read-only map from the
relative path to the file content (`none` = file does not exist). -/

def Store : Type := String → Option String

/-- `ensureAsset(relPath, fallback)`: the asset's content when present,
else the fallback file's content when the fallback name is truthy and the
file is present, else the empty string (a warning is logged for every
miss; logging is a side effect outside the model). -/
def ensureAsset (store : Store) (relPath fallback : String) : String :=
  match store relPath with
  | some content => content
  | none =>
    if fallback.isEmpty then ""
    else
      match store fallback with
      | some fb => fb
      | none => ""

def bgCandidates : List String := ["neon_purple.svg", "hologrid.svg", "pink_grad.svg"]

/-- The background files that exist on disk. -/
def bgList (store : Store) : List String :=
  bgCandidates.filter (fun f => (store ("background/" ++ f)).isSome)

def bsvgP0 : String :=
  "<svg xmlns=\"http://www.w3.org/2000/svg\" viewBox=\"0 0 1200 1200\">\n  <defs>\n    <style>\n      .shadow\x7b filter: drop-shadow(0 4px 24px rgba(0,0,0,.35)); \x7d\n    </style>\n  </defs>\n  <!-- bg -->\n  <g>"

def bsvgP1 : String :=
  "</g>\n  <!-- drawable area -->\n  <g class=\"shadow\">\n    "

def layerSep : String := "\n    "

def bsvgP7 : String :=
  "\n  </g>\n  <text x=\"48\" y=\"1140\" font-size=\"28\" fill=\"#ffffffaa\" font-family=\"Inter, Arial, sans-serif\">WarpCat • FID "

def bsvgP8 : String := "</text>\n</svg>"

/-- The trimmed template literal of `buildSvg`, split at its interpolation
holes: background fragment, then face, aura, eyes, mouth, head, accessory
inside the shadow group, then the FID label text. -/
def buildSvgDoc (bgSvg face aura eyes mouth head accessory fid : String) : String :=
  bsvgP0 ++ bgSvg ++ bsvgP1 ++ face ++ layerSep ++ aura ++ layerSep ++ eyes ++
    layerSep ++ mouth ++ layerSep ++ head ++ layerSep ++ accessory ++ bsvgP7 ++
    fid ++ bsvgP8

/-- `buildSvg(fid)` over an explicit asset store.  `none` models the
exception escaping from `randFrom` when the background list is non-empty
and the fid does not parse as a BigInt. -/
def buildSvg (store : Store) (fid : String) : Option String :=
  match (if bgList store ≠ [] then randFrom (bgList store) fid
         else some (some "neon_purple.svg")) with
  | none => none
  | some bgv =>
    let bg := jsStr bgv
    let face := ensureAsset store "body/cat_base.svg" "body/cat_base.svg"
    let eyes := ensureAsset store "eyes/sharp.svg" "eyes/sharp.svg"
    let mouth := ensureAsset store "mouth/smile.svg" "mouth/smile.svg"
    let head := ensureAsset store "headgear/bandana.svg" ""
    let aura := ensureAsset store "aura/none.svg" ""
    let accessory := ensureAsset store "accessory/none.svg" ""
    let bgSvg := ensureAsset store ("background/" ++ bg) "background/neon_purple.svg"
    some (buildSvgDoc bgSvg face aura eyes mouth head accessory fid)

/-! ### Image endpoints (src/unnamed/part_001 lines 174-190) -/

inductive ImgResponse : Type where
  | pngBody (bytes : String)
  | svgBody (doc : String)
  | err500
deriving DecidableEq, Repr

/-- `GET /img/preview/:fid.png`: builds the SVG, rasterizes it with
`sharp`, answers 500 on any thrown error (the try/catch covers both
`buildSvg` and `svgToPng`).  The rasterizer is an external collaborator,
passed as a function that may fail. -/
def pngEndpoint (store : Store) (raster : String → Option String) (fid : String) :
    ImgResponse :=
  match buildSvg store fid with
  | none => ImgResponse.err500
  | some svg =>
    match raster svg with
    | none => ImgResponse.err500
    | some png => ImgResponse.pngBody png

/-- `GET /img/preview/:fid.svg`: no try/catch; a throw inside `buildSvg`
becomes the framework's default 500 response. -/
def svgEndpoint (store : Store) (fid : String) : ImgResponse :=
  match buildSvg store fid with
  | none => ImgResponse.err500
  | some svg => ImgResponse.svgBody svg

/-! ### POST /frame/mint (src/index.js lines 616-648) -/

/-- A JavaScript number under SameValueZero equality; `none` is NaN
(`[NaN].includes(NaN)` is true, matching `Option.decEq`). -/
abbrev JsNum : Type := Option ℚ

inductive MintPage : Type where
  | already
  | fresh
deriving DecidableEq, Repr

/-- One `POST /frame/mint` request over the persisted fid list: respond
with the “Already Minted” page and keep the list, or `push` the fid and
respond with the “WarpCat Minted” page. -/
def mintStep (minted : List JsNum) (v : JsNum) : MintPage × List JsNum :=
  if v ∈ minted then (MintPage.already, minted)
  else (MintPage.fresh, minted ++ [v])

/-! ### buildMintData (src/index.js lines 744-758, src/unnamed/part_003
lines 46-55) -/

def MINT_SELECTOR : String := "0xa0712d68"

def hexDigitChar (d : Nat) : Char :=
  Char.ofNat (if d < 10 then 48 + d else 87 + d)

/-- Base-16 digits of a natural number, most significant first
(`BigInt.prototype.toString(16)` for non-negative values). -/
def toHexDigits (n : Nat) : List Char :=
  if h : n < 16 then [hexDigitChar n]
  else toHexDigits (n / 16) ++ [hexDigitChar (n % 16)]
decreasing_by exact Nat.div_lt_self (by omega) (by omega)

/-- `BigInt.prototype.toString(16)`. -/
def jsIntToString16 (n : Int) : String :=
  if n < 0 then "-" ++ String.mk (toHexDigits (-n).toNat)
  else String.mk (toHexDigits n.toNat)

/-- `s.padStart(64, '0')`. -/
def padStart64Zero (s : String) : String :=
  if 64 ≤ s.length then s
  else String.mk (List.replicate (64 - s.length) '0') ++ s

/-- `uint256Hex = (n) => ('0x' + BigInt(n).toString(16).padStart(64, '0'))`. -/
def uint256Hex (n : Int) : String :=
  "0x" ++ padStart64Zero (jsIntToString16 n)

/-- `s.slice(2)` on an ASCII string. -/
def jsSlice2 (s : String) : String := String.mk (s.data.drop 2)

def jsToLowerChar (c : Char) : Char :=
  if 65 ≤ c.toNat ∧ c.toNat ≤ 90 then Char.ofNat (c.toNat + 32) else c

/-- `String.prototype.toLowerCase` on ASCII content. -/
def jsToLower (s : String) : String := String.mk (s.data.map jsToLowerChar)

/-- `buildMintData(fidStr)` of the fixed-selector variant: calldata
`MINT_SELECTOR ++ uint256Hex(BigInt(fidStr || '0')).slice(2)` lowercased,
falling back to the bare selector when `BigInt` throws. -/
def buildMintData (fidStr : String) : String :=
  let s := if fidStr.isEmpty then "0" else fidStr
  match parseBigInt s with
  | none => MINT_SELECTOR
  | some fid => jsToLower (MINT_SELECTOR ++ jsSlice2 (uint256Hex fid))

/-! ### Concrete test fixtures used by witnesses and counterexamples -/

/-- A syntactically valid digest whose first aligned chunk is `ffffffff`,
the numerator that makes the generator return exactly 1. -/
def allFDigest : String :=
  "ffffffffffffffffffffffffffffffffffffffffffffffffffffffffffffffff"

/-- A digest whose draws select eyes = `sharp` (chunk `aaaaaaab`) and
hat = `headset` (chunk `c0000000`). -/
def sharpHeadsetDigest : String :=
  "00000000aaaaaaab00000000c000000000000000000000000000000000000000"

/-- The all-zero digest: every draw is 0, every pick is the first option. -/
def zeroDigest : String :=
  "0000000000000000000000000000000000000000000000000000000000000000"

/-- The empty asset store: every file is missing. -/
def emptyStore : Store := fun _ => none

/-- A store holding exactly one background file, so that `buildSvg` calls
`randFrom` on a non-empty list. -/
def oneBgStore : Store := fun p =>
  if p = "background/neon_purple.svg" then some "<g/>" else none

/-- A rasterizer that always succeeds (echoes its input bytes). -/
def okRaster : String → Option String := fun s => some s

/-! ### Helper lemmas -/

theorem hexCharVal_lt {c : Char} (hc : jsIsHexDigit c = true) : hexCharVal c < 16 := by
  unfold jsIsHexDigit at hc
  simp only [Bool.or_eq_true, Bool.and_eq_true, decide_eq_true_eq] at hc
  unfold hexCharVal
  split_ifs <;> omega

theorem hexFold_lt :
    ∀ l : List Char, (∀ c ∈ l, jsIsHexDigit c = true) →
      ∀ a : Nat,
        List.foldl (fun x c => 16 * x + hexCharVal c) a l < (a + 1) * 16 ^ l.length := by
  intro l
  induction l with
  | nil => intro _ a; simpa using Nat.lt_succ_self a
  | cons c t ih =>
    intro hl a
    simp only [List.foldl_cons, List.length_cons]
    have hv : hexCharVal c < 16 := hexCharVal_lt (hl c (List.mem_cons_self c t))
    calc List.foldl (fun x c => 16 * x + hexCharVal c) (16 * a + hexCharVal c) t
        < (16 * a + hexCharVal c + 1) * 16 ^ t.length :=
          ih (fun x hx => hl x (List.mem_cons_of_mem _ hx)) _
      _ ≤ ((a + 1) * 16) * 16 ^ t.length := Nat.mul_le_mul_right _ (by omega)
      _ = (a + 1) * 16 ^ (t.length + 1) := by ring

theorem parseIntHex_all {s : String} (hne : s.data ≠ [])
    (hl : ∀ c ∈ s.data, jsIsHexDigit c = true) :
    ∃ v, parseIntHex s = some v ∧ v < 16 ^ s.data.length := by
  unfold parseIntHex
  rw [List.takeWhile_eq_self_iff.mpr hl]
  simp only [List.isEmpty_iff, hne, if_false]
  exact ⟨_, rfl, by simpa using hexFold_lt s.data hl 0⟩

theorem rngIndex_lt {h : String} (hlen : h.length = 64) (k : Nat) :
    rngIndex h k < 64 := by
  cases k with
  | zero => simp [rngIndex]
  | succ k =>
    simp only [rngIndex, hlen]
    exact Nat.mod_lt _ (by omega)

theorem chunkAt_subset {h : String} {i : Nat} :
    ∀ c ∈ (chunkAt h i).data, c ∈ h.data := by
  intro c hc
  unfold chunkAt at hc
  exact List.drop_subset _ _ (List.take_subset _ _ hc)

theorem chunkAt_ne_nil {h : String} (hlen : h.length = 64) {i : Nat} (hi : i < 64) :
    (chunkAt h i).data ≠ [] := by
  unfold chunkAt
  intro hcon
  have hd : h.data.length = 64 := hlen
  apply_fun List.length at hcon
  simp only [List.length_take, List.length_drop, hd, List.length_nil] at hcon
  omega

theorem chunkAt_len_le (h : String) (i : Nat) : (chunkAt h i).data.length ≤ 8 := by
  unfold chunkAt
  simpa using List.length_take_le 8 _

theorem rngNat_some {h : String} (hh : IsHexDigest h) (k : Nat) :
    ∃ v, rngNat h k = some v ∧ v ≤ 4294967295 := by
  obtain ⟨hlen, hchars⟩ := hh
  have hi := rngIndex_lt hlen k
  have hne : (chunkAt h (rngIndex h k)).data ≠ [] := chunkAt_ne_nil hlen hi
  have hcl : ∀ x ∈ (chunkAt h (rngIndex h k)).data, jsIsHexDigit x = true :=
    fun x hx => (hchars x (chunkAt_subset x hx)).1
  have hem : (chunkAt h (rngIndex h k)).isEmpty = false := by
    rw [Bool.eq_false_iff]
    intro hemp
    exact hne (congrArg String.data ((String.isEmpty_iff _).mp hemp))
  obtain ⟨v, hv, hlt⟩ := parseIntHex_all hne hcl
  refine ⟨v, ?_, ?_⟩
  · unfold rngNat
    rw [hem]
    simpa using hv
  · have h8 : (16 : ℕ) ^ (chunkAt h (rngIndex h k)).data.length ≤ 16 ^ 8 :=
      Nat.pow_le_pow_right (by norm_num) (chunkAt_len_le h _)
    omega

theorem rngVal_some {h : String} (hh : IsHexDigest h) (k : Nat) :
    ∃ v : Nat, v ≤ 4294967295 ∧ rngNat h k = some v ∧
      rngVal h k = some ((v : ℚ) / 4294967295) := by
  obtain ⟨v, hv, hb⟩ := rngNat_some hh k
  exact ⟨v, hb, hv, by simp [rngVal, hv]⟩

theorem floor_div_mul (v L : Nat) :
    (⌊((v : ℚ) / 4294967295) * (L : ℚ)⌋ : ℤ) = ((v * L / 4294967295 : Nat) : ℤ) := by
  rw [div_mul_eq_mul_div]
  have h1 : ((v : ℚ)) * (L : ℚ) = (((v * L : ℕ) : ℤ) : ℚ) := by push_cast; ring
  have h2 : (4294967295 : ℚ) = ((4294967295 : ℕ) : ℚ) := by norm_num
  rw [h1, h2, Rat.floor_intCast_div_natCast]
  omega

theorem pickOne_rngVal {α : Type} (h : String) (k : Nat) (arr : List α) :
    pickOne (rngVal h k) arr =
      (rngNat h k).bind fun v => arr.get? (v * arr.length / 4294967295) := by
  cases hv : rngNat h k with
  | none => simp [pickOne, rngVal, hv]
  | some v =>
    simp only [rngVal, hv, Option.map_some', pickOne, Option.some_bind]
    rw [floor_div_mul, if_neg (not_lt.mpr (Int.natCast_nonneg _)), Int.toNat_natCast]

theorem get?_isSome_of_lt {α : Type} {arr : List α} {i : Nat} (hi : i < arr.length) :
    (arr.get? i).isSome = true := by
  rw [List.get?_eq_get hi]
  rfl

theorem pickOne_inbounds {α : Type} (r : ℚ) (arr : List α) (h0 : 0 ≤ r) (h1 : r < 1)
    (hne : arr ≠ []) :
    ∃ i, i < arr.length ∧ pickOne (some r) arr = arr.get? i ∧
      (arr.get? i).isSome = true := by
  have hlp : 0 < arr.length := List.length_pos.mpr hne
  have hlq : (0 : ℚ) < (arr.length : ℚ) := by exact_mod_cast hlp
  have hfl0 : 0 ≤ ⌊r * (arr.length : ℚ)⌋ :=
    Int.floor_nonneg.mpr (mul_nonneg h0 (le_of_lt hlq))
  have hflt : ⌊r * (arr.length : ℚ)⌋ < (arr.length : ℤ) := by
    apply Int.floor_lt.mpr
    push_cast
    calc r * (arr.length : ℚ) < 1 * (arr.length : ℚ) :=
          mul_lt_mul_of_pos_right h1 hlq
      _ = (arr.length : ℚ) := one_mul _
  refine ⟨(⌊r * (arr.length : ℚ)⌋).toNat, by omega, ?_, get?_isSome_of_lt (by omega)⟩
  simp [pickOne, not_lt.mpr hfl0]

theorem pickOne_mem {α : Type} {r? : Option ℚ} {arr : List α} {x : α}
    (hx : pickOne r? arr = some x) : x ∈ arr := by
  unfold pickOne at hx
  cases r? with
  | none => simp at hx
  | some r =>
    simp only [Option.some_bind] at hx
    split_ifs at hx
    exact List.get?_mem hx

theorem randFrom_inbounds (arr : List String) (s : String) (n : Int)
    (hp : parseBigInt s = some n) (hn : 0 ≤ n) (hne : arr ≠ []) :
    ∃ i, i < arr.length ∧ randFrom arr s = some (arr.get? i) ∧
      (arr.get? i).isSome = true := by
  have hlp : 0 < arr.length := List.length_pos.mpr hne
  have hlz : (0 : ℤ) < (arr.length : ℤ) := by exact_mod_cast hlp
  have hmod : Int.tmod n (arr.length : ℤ) = n % (arr.length : ℤ) :=
    Int.tmod_eq_emod hn (le_of_lt hlz)
  have h0 : 0 ≤ Int.tmod n (arr.length : ℤ) := by
    rw [hmod]; exact Int.emod_nonneg _ (by omega)
  have hlt : Int.tmod n (arr.length : ℤ) < (arr.length : ℤ) := by
    rw [hmod]; exact Int.emod_lt_of_pos _ hlz
  refine ⟨(Int.tmod n (arr.length : ℤ)).toNat, by omega, ?_, get?_isSome_of_lt (by omega)⟩
  unfold randFrom
  rw [hp]
  have hlne : arr.length ≠ 0 := by omega
  simp [hlne, not_lt.mpr h0]

theorem rngVal_bounds {h : String} (hh : IsHexDigest h) (k : Nat) :
    ∃ q : ℚ, rngVal h k = some q ∧ 0 ≤ q ∧ q ≤ 1 := by
  obtain ⟨v, hvle, _, hq⟩ := rngVal_some hh k
  refine ⟨_, hq, ?_, ?_⟩
  · positivity
  · rw [div_le_one (by norm_num)]
    exact_mod_cast hvle

theorem hexCharVal_hexDigitChar {d : Nat} (hd : d < 16) :
    hexCharVal (hexDigitChar d) = d := by
  interval_cases d <;> decide

theorem hexDigitChar_range {d : Nat} (hd : d < 16) :
    (48 ≤ (hexDigitChar d).toNat ∧ (hexDigitChar d).toNat ≤ 57) ∨
      (97 ≤ (hexDigitChar d).toNat ∧ (hexDigitChar d).toNat ≤ 102) := by
  interval_cases d <;> decide

theorem jsIsHexDigit_of_range {c : Char}
    (hc : (48 ≤ c.toNat ∧ c.toNat ≤ 57) ∨ (97 ≤ c.toNat ∧ c.toNat ≤ 102)) :
    jsIsHexDigit c = true := by
  unfold jsIsHexDigit
  simp only [Bool.or_eq_true, Bool.and_eq_true, decide_eq_true_eq]
  omega

theorem toHexDigits_chars (n : Nat) :
    ∀ c ∈ toHexDigits n,
      (48 ≤ c.toNat ∧ c.toNat ≤ 57) ∨ (97 ≤ c.toNat ∧ c.toNat ≤ 102) := by
  induction n using Nat.strong_induction_on with
  | _ n ih =>
    rw [toHexDigits]
    split_ifs with h16
    · intro c hc
      rw [List.mem_singleton] at hc
      subst hc
      exact hexDigitChar_range h16
    · intro c hc
      rcases List.mem_append.mp hc with hc | hc
      · exact ih (n / 16) (Nat.div_lt_self (by omega) (by omega)) c hc
      · rw [List.mem_singleton] at hc
        subst hc
        exact hexDigitChar_range (Nat.mod_lt _ (by omega))

theorem toHexDigits_foldl (n : Nat) :
    (toHexDigits n).foldl (fun a c => 16 * a + hexCharVal c) 0 = n := by
  suffices h : ∀ m : Nat, ∀ a : Nat,
      (toHexDigits m).foldl (fun a c => 16 * a + hexCharVal c) a =
        a * 16 ^ (toHexDigits m).length + m by
    simpa using h n 0
  intro m
  induction m using Nat.strong_induction_on with
  | _ m ih =>
    intro a
    rw [toHexDigits]
    split_ifs with h16
    · simp [List.foldl_cons, hexCharVal_hexDigitChar h16]
      ring
    · rw [List.foldl_append, ih (m / 16) (Nat.div_lt_self (by omega) (by omega)),
        List.length_append]
      simp only [List.foldl_cons, List.foldl_nil, List.length_singleton]
      rw [hexCharVal_hexDigitChar (Nat.mod_lt _ (by omega))]
      have hm := Nat.div_add_mod m 16
      ring_nf
      omega

theorem toHexDigits_len :
    ∀ k n : Nat, n < 16 ^ k → 1 ≤ k → (toHexDigits n).length ≤ k := by
  intro k n
  induction n using Nat.strong_induction_on generalizing k with
  | _ n ih =>
    intro hn hk
    rw [toHexDigits]
    split_ifs with h16
    · simpa using hk
    · have hk2 : 2 ≤ k := by
        by_contra hcon
        interval_cases k
        · exact h16 (by simpa using hn)
      have hdiv : n / 16 < 16 ^ (k - 1) := by
        apply Nat.div_lt_of_lt_mul
        have : 16 ^ (k - 1) * 16 = 16 ^ k := by
          rw [← pow_succ]
          congr 1
          omega
        omega
      have := ih (n / 16) (Nat.div_lt_self (by omega) (by omega)) (k - 1) hdiv (by omega)
      simp only [List.length_append, List.length_singleton]
      omega

theorem foldl_zeros (k : Nat) :
    List.foldl (fun a c => 16 * a + hexCharVal c) 0 (List.replicate k '0') = 0 := by
  induction k with
  | zero => rfl
  | succ k ih =>
    rw [List.replicate_succ, List.foldl_cons]
    simpa using ih

theorem string_mk_data (s : String) : String.mk s.data = s := rfl

theorem jsToLower_eq_self {s : String}
    (hs : ∀ c ∈ s.data, ¬ (65 ≤ c.toNat ∧ c.toNat ≤ 90)) : jsToLower s = s := by
  unfold jsToLower
  have hmap : s.data.map jsToLowerChar = s.data := by
    conv_rhs => rw [← List.map_id s.data]
    apply List.map_congr_left
    intro c hc
    unfold jsToLowerChar
    rw [if_neg (hs c hc)]
    rfl
  rw [hmap, string_mk_data]

theorem parseBigInt_empty : parseBigInt "" = some 0 := by decide

theorem buildMintData_parse {s : String} {n : Int} (hp : parseBigInt s = some n) :
    buildMintData s = jsToLower (MINT_SELECTOR ++ jsSlice2 (uint256Hex n)) := by
  unfold buildMintData
  cases he : s.isEmpty with
  | false => simp [he, hp]
  | true =>
    have hs : s = "" := (String.isEmpty_iff s).mp he
    subst hs
    rw [parseBigInt_empty] at hp
    injection hp with hn
    have h0 : parseBigInt "0" = some 0 := by decide
    simp [h0, ← hn]

theorem mintSelector_lower : ∀ c ∈ MINT_SELECTOR.data, ¬ (65 ≤ c.toNat ∧ c.toNat ≤ 90) := by
  decide

theorem buildMintData_spec {s : String} {n : Int} (hp : parseBigInt s = some n)
    (hn : 0 ≤ n) (hlt : n < 2 ^ 256) :
    ∃ pad : String,
      buildMintData s = MINT_SELECTOR ++ pad ∧ pad.length = 64 ∧
        (∀ c ∈ pad.data, jsIsHexDigit c = true) ∧ parseIntHex pad = some n.toNat := by
  have hchars := toHexDigits_chars n.toNat
  have hlen : (toHexDigits n.toNat).length ≤ 64 := by
    apply toHexDigits_len 64
    · calc n.toNat < 2 ^ 256 := by omega
        _ = 16 ^ 64 := by norm_num
    · omega
  refine ⟨String.mk (List.replicate (64 - (toHexDigits n.toNat).length) '0' ++
    toHexDigits n.toNat), ?_, ?_, ?_, ?_⟩
  · rw [buildMintData_parse hp]
    have h16 : jsIntToString16 n = String.mk (toHexDigits n.toNat) := by
      unfold jsIntToString16
      rw [if_neg (by omega)]
    have hps : padStart64Zero (String.mk (toHexDigits n.toNat)) =
        String.mk (List.replicate (64 - (toHexDigits n.toNat).length) '0' ++
          toHexDigits n.toNat) := by
      unfold padStart64Zero
      by_cases h64 : 64 ≤ (String.mk (toHexDigits n.toNat)).length
      · have heq : (toHexDigits n.toNat).length = 64 := by
          have hmk : (String.mk (toHexDigits n.toNat)).length =
            (toHexDigits n.toNat).length := rfl
          omega
        rw [if_pos h64, heq]
        rfl
      · rw [if_neg h64]
        rfl
    have hsl : jsSlice2 (uint256Hex n) =
        String.mk (List.replicate (64 - (toHexDigits n.toNat).length) '0' ++
          toHexDigits n.toNat) := by
      unfold uint256Hex jsSlice2
      rw [h16, hps]
      rfl
    rw [hsl]
    apply jsToLower_eq_self
    intro c hc
    have hdat : (MINT_SELECTOR ++ String.mk (List.replicate
        (64 - (toHexDigits n.toNat).length) '0' ++ toHexDigits n.toNat)).data =
        MINT_SELECTOR.data ++ (List.replicate (64 - (toHexDigits n.toNat).length) '0' ++
          toHexDigits n.toNat) := rfl
    rw [hdat] at hc
    rcases List.mem_append.mp hc with hc | hc
    · exact mintSelector_lower c hc
    · rcases List.mem_append.mp hc with hc | hc
      · rw [List.eq_of_mem_replicate hc]
        decide
      · have := hchars c hc
        omega
  · show (List.replicate (64 - (toHexDigits n.toNat).length) '0' ++
      toHexDigits n.toNat).length = 64
    simp only [List.length_append, List.length_replicate]
    omega
  · intro c hc
    rcases List.mem_append.mp hc with hc | hc
    · rw [List.eq_of_mem_replicate hc]
      decide
    · exact jsIsHexDigit_of_range (hchars c hc)
  · unfold parseIntHex
    have hall : ∀ c ∈ (List.replicate (64 - (toHexDigits n.toNat).length) '0' ++
        toHexDigits n.toNat), jsIsHexDigit c = true := by
      intro c hc
      rcases List.mem_append.mp hc with hc | hc
      · rw [List.eq_of_mem_replicate hc]
        decide
      · exact jsIsHexDigit_of_range (hchars c hc)
    have hdata : (String.mk (List.replicate (64 - (toHexDigits n.toNat).length) '0' ++
        toHexDigits n.toNat)).data =
        List.replicate (64 - (toHexDigits n.toNat).length) '0' ++
          toHexDigits n.toNat := rfl
    rw [hdata, List.takeWhile_eq_self_iff.mpr hall]
    have hne : (List.replicate (64 - (toHexDigits n.toNat).length) '0' ++
        toHexDigits n.toNat).isEmpty = false := by
      have h1 : toHexDigits n.toNat ≠ [] := by
        rw [toHexDigits]
        split_ifs <;> simp
      rw [Bool.eq_false_iff]
      simp [List.isEmpty_iff, h1]
    rw [hne]
    simp only [Bool.false_eq_true, if_false]
    rw [List.foldl_append, foldl_zeros, toHexDigits_foldl]

theorem buildMintData_fail {s : String} (hp : parseBigInt s = none) :
    buildMintData s = MINT_SELECTOR := by
  unfold buildMintData
  have hne : s.isEmpty = false := by
    rw [Bool.eq_false_iff]
    intro he
    rw [(String.isEmpty_iff s).mp he, parseBigInt_empty] at hp
    cases hp
  simp [hne, hp]

theorem buildSvg_eq (store : Store) (fid : String) :
    buildSvg store fid =
      (if bgList store ≠ [] then randFrom (bgList store) fid
       else some (some "neon_purple.svg")).map
        (fun bgv =>
          buildSvgDoc
            (ensureAsset store ("background/" ++ jsStr bgv) "background/neon_purple.svg")
            (ensureAsset store "body/cat_base.svg" "body/cat_base.svg")
            (ensureAsset store "aura/none.svg" "")
            (ensureAsset store "eyes/sharp.svg" "eyes/sharp.svg")
            (ensureAsset store "mouth/smile.svg" "mouth/smile.svg")
            (ensureAsset store "headgear/bandana.svg" "")
            (ensureAsset store "accessory/none.svg" "")
            fid) := by
  unfold buildSvg
  cases (if bgList store ≠ [] then randFrom (bgList store) fid
      else some (some "neon_purple.svg")) with
  | none => rfl
  | some bgv => rfl

theorem buildSvg_none_iff (store : Store) (fid : String) :
    buildSvg store fid = none ↔ bgList store ≠ [] ∧ parseBigInt fid = none := by
  rw [buildSvg_eq, Option.map_eq_none']
  by_cases hbg : bgList store = []
  · simp [hbg]
  · rw [if_pos hbg]
    cases hp : parseBigInt fid with
    | none => simp [randFrom, hp, hbg]
    | some m =>
      have hlne : (bgList store).length ≠ 0 := fun hc => hbg (List.length_eq_zero.mp hc)
      simp only [randFrom, hp, hbg, and_false, iff_false]
      rw [if_neg hlne]
      split_ifs <;> simp

theorem pickOne_one {α : Type} (arr : List α) : pickOne (some 1) arr = none := by
  unfold pickOne
  simp only [Option.some_bind, one_mul, Int.floor_natCast]
  rw [if_neg (not_lt.mpr (Int.natCast_nonneg _)), Int.toNat_natCast]
  exact List.get?_eq_none.mpr le_rfl

theorem ensureAsset_emptyStore (p fb : String) : ensureAsset emptyStore p fb = "" := by
  unfold ensureAsset emptyStore
  split_ifs <;> rfl

theorem buildSvg_emptyStore (fid : String) :
    buildSvg emptyStore fid = some (buildSvgDoc "" "" "" "" "" "" "" fid) := by
  have hbg : bgList emptyStore = [] := rfl
  rw [buildSvg_eq, hbg, if_neg (by simp), Option.map_some', ensureAsset_emptyStore,
    ensureAsset_emptyStore, ensureAsset_emptyStore, ensureAsset_emptyStore,
    ensureAsset_emptyStore, ensureAsset_emptyStore, ensureAsset_emptyStore]

theorem count_beq_eq (x : JsNum) (L : List JsNum) :
    L.count x = @List.count JsNum instBEqOfDecidableEq x L := by
  induction L with
  | nil => rfl
  | cons y t ih =>
    simp only [List.count_cons]
    rw [ih]
    congr 1
    by_cases hxy : y = x <;> simp [hxy]

theorem render_eq (h fid : String) :
    renderWarpCatSVGFromDigest h fid =
      (selectionFromDigest h).pal.map
        (fun pal => renderDoc pal (selectionFromDigest h).traits fid) := by
  unfold renderWarpCatSVGFromDigest
  rcases selectionFromDigest h with ⟨pal?, trait⟩
  cases pal? <;> rfl

/-! ### Claims -/

/-- C1: with unchanged tables, rules and asset files, trait selection and
image composition are functions of the identifier alone: two runs on the
same digest (derived from the identifier via SHA-256) and the same asset
store return byte-identical Selections and vector documents. -/
theorem c1_determinism (h fid : String) (store : Store)
    (s₁ s₂ : Selection) (d₁ d₂ b₁ b₂ : Option String)
    (hs₁ : s₁ = selectionFromDigest h) (hs₂ : s₂ = selectionFromDigest h)
    (hd₁ : d₁ = renderWarpCatSVGFromDigest h fid)
    (hd₂ : d₂ = renderWarpCatSVGFromDigest h fid)
    (hb₁ : b₁ = buildSvg store fid) (hb₂ : b₂ = buildSvg store fid) :
    s₁ = s₂ ∧ d₁ = d₂ ∧ b₁ = b₂ := by
  subst hs₁ hs₂ hd₁ hd₂ hb₁ hb₂
  exact ⟨rfl, rfl, rfl⟩

theorem c1_witness :
    selectionFromDigest zeroDigest = selectionFromDigest zeroDigest ∧
      renderWarpCatSVGFromDigest zeroDigest "12345" =
        renderWarpCatSVGFromDigest zeroDigest "12345" ∧
      buildSvg emptyStore "12345" = buildSvg emptyStore "12345" :=
  c1_determinism zeroDigest "12345" emptyStore _ _ _ _ _ _ rfl rfl rfl rfl rfl rfl

/-- C2 counterexample: the claim that an unparsable identifier is treated
as zero and never throws is false: `randFrom` evaluates `BigInt(seed)`
without a try/catch, so the seed `"abc"` raises a SyntaxError (modelled as
`none`) instead of behaving like seed `"0"`. -/
theorem c2_counterexample :
    ¬ (∀ s : String, parsesAsNonNegInt s = false →
        ∀ arr : List String, arr ≠ [] →
          randFrom arr s ≠ none ∧ randFrom arr s = randFrom arr "0") := by
  intro H
  exact (H "abc" (by decide) ["neon_purple.svg"] (by decide)).1 (by decide)

/-- C2 amended: `randFrom` throws (`BigInt` SyntaxError) whenever the seed
fails to parse; `prngFromFid` never parses the identifier at all — it
hashes the string form, so every draw over a well-formed digest succeeds;
and `buildSvg` cannot throw when no background asset exists, because the
`randFrom` call is skipped. -/
theorem c2_amended :
    (∀ (s : String) (arr : List String), parseBigInt s = none →
      randFrom arr s = none) ∧
    (∀ (h : String) (k : Nat), IsHexDigest h → (rngVal h k).isSome = true) ∧
    (∀ (store : Store) (fid : String), bgList store = [] →
      (buildSvg store fid).isSome = true) := by
  refine ⟨?_, ?_, ?_⟩
  · intro s arr hp
    unfold randFrom
    rw [hp]
  · intro h k hh
    obtain ⟨v, _, _, hq⟩ := rngVal_some hh k
    rw [hq]
    rfl
  · intro store fid hbg
    rw [buildSvg_eq, if_neg (by simp [hbg])]
    rfl

theorem c2_witness :
    randFrom ["neon_purple.svg"] "abc" = none ∧
      (rngVal zeroDigest 0).isSome = true ∧
      (buildSvg emptyStore "abc").isSome = true :=
  ⟨c2_amended.1 "abc" ["neon_purple.svg"] (by decide),
   c2_amended.2.1 zeroDigest 0 (by decide),
   c2_amended.2.2 emptyStore "abc" (by decide)⟩

/-- C3 counterexample: the per-category pick is not always an element of
the list: on the digest whose first chunk is `ffffffff` the draw is
exactly 1, `Math.floor(1 * length)` equals the length, and every category
of the Selection is `undefined`. -/
theorem c3_counterexample :
    ¬ (∀ h : String, IsHexDigest h →
        (selectionFromDigest h).pal.isSome = true ∧
        (selectionFromDigest h).traits.eyes.isSome = true ∧
        (selectionFromDigest h).traits.glasses.isSome = true ∧
        (selectionFromDigest h).traits.hat.isSome = true ∧
        (selectionFromDigest h).traits.neck.isSome = true ∧
        (selectionFromDigest h).traits.fur.isSome = true) := by
  intro H
  have hpal : (selectionFromDigest allFDigest).pal = none := by
    simp only [selectionFromDigest, paletteFromDigest, pickOne_rngVal]
    decide
  have := (H allFDigest (by decide)).1
  rw [hpal] at this
  exact Bool.noConfusion this

/-- C3 amended: whenever the draw value is strictly below 1 — every chunk
except `ffffffff` — the pick returns an element at an index strictly less
than the list length; the draw value 1 makes the pick out of range
(`undefined`).  `randFrom` always returns an element of a non-empty list
for a non-negative parsed seed. -/
theorem c3_amended :
    (∀ (r : ℚ) (arr : List String), 0 ≤ r → r < 1 → arr ≠ [] →
      ∃ i, i < arr.length ∧ pickOne (some r) arr = arr.get? i ∧
        (arr.get? i).isSome = true) ∧
    (∀ (h : String) (k : Nat) (arr : List String), IsHexDigest h → arr ≠ [] →
      (∃ i, i < arr.length ∧ pickOne (rngVal h k) arr = arr.get? i ∧
        (arr.get? i).isSome = true) ∨
      (rngVal h k = some 1 ∧ pickOne (rngVal h k) arr = none)) ∧
    (∀ (s : String) (n : Int) (arr : List String),
      parseBigInt s = some n → 0 ≤ n → arr ≠ [] →
      ∃ i, i < arr.length ∧ randFrom arr s = some (arr.get? i) ∧
        (arr.get? i).isSome = true) := by
  refine ⟨?_, ?_, ?_⟩
  · exact pickOne_inbounds
  · intro h k arr hh hne
    obtain ⟨v, hvle, hvn, hq⟩ := rngVal_some hh k
    rcases lt_or_eq_of_le hvle with hlt | heq
    · left
      have h0 : (0 : ℚ) ≤ (v : ℚ) / 4294967295 := by positivity
      have h1 : ((v : ℚ) / 4294967295) < 1 := by
        rw [div_lt_one (by norm_num)]
        exact_mod_cast hlt
      obtain ⟨i, hi, hpick, hsome⟩ := pickOne_inbounds _ arr h0 h1 hne
      refine ⟨i, hi, ?_, hsome⟩
      rw [hq]
      exact hpick
    · right
      have hq1 : rngVal h k = some 1 := by
        rw [hq, heq]
        norm_num
      exact ⟨hq1, by rw [hq1]; exact pickOne_one arr⟩
  · intro s n arr hp hn hne
    exact randFrom_inbounds arr s n hp hn hne

theorem c3_witness :
    (∃ i, i < (["a", "b"] : List String).length ∧
      pickOne (some (1 / 2 : ℚ)) ["a", "b"] = (["a", "b"] : List String).get? i ∧
      ((["a", "b"] : List String).get? i).isSome = true) ∧
    ((∃ i, i < eyeStyles.length ∧
      pickOne (rngVal zeroDigest 1) eyeStyles = eyeStyles.get? i ∧
      (eyeStyles.get? i).isSome = true) ∨
     (rngVal zeroDigest 1 = some 1 ∧ pickOne (rngVal zeroDigest 1) eyeStyles = none)) ∧
    (∃ i, i < (["a", "b"] : List String).length ∧
      randFrom ["a", "b"] "3" = some ((["a", "b"] : List String).get? i) ∧
      ((["a", "b"] : List String).get? i).isSome = true) :=
  ⟨c3_amended.1 (1 / 2) ["a", "b"] (by norm_num) (by norm_num) (by decide),
   c3_amended.2.1 zeroDigest 1 eyeStyles (by decide) (by decide),
   c3_amended.2.2 "3" 3 ["a", "b"] (by decide) (by decide) (by decide)⟩

/-- C4 counterexample: the generator's range is not `[0,1)`: the division
is by `0xffffffff`, so the chunk `ffffffff` yields exactly 1. -/
theorem c4_counterexample :
    ¬ (∀ (h : String) (k : Nat) (q : ℚ), IsHexDigest h → rngVal h k = some q →
        0 ≤ q ∧ q < 1) := by
  intro H
  have h1 : rngVal allFDigest 0 = some 1 := by
    have hv : rngNat allFDigest 0 = some 4294967295 := by decide
    rw [rngVal, hv]
    norm_num
  exact absurd (H allFDigest 0 1 (by decide) h1).2 (by norm_num)

/-- C4 amended: every draw over a well-formed digest lies in the closed
interval `[0,1]`; the right end is attained exactly by the all-`f` chunk
(`parseInt('ffffffff',16)/0xffffffff = 1`). -/
theorem c4_amended (h : String) (k : Nat) (hh : IsHexDigest h) :
    ∃ q : ℚ, rngVal h k = some q ∧ 0 ≤ q ∧ q ≤ 1 ∧
      (chunkAt h (rngIndex h k) = "ffffffff" → q = 1) := by
  obtain ⟨v, hvle, hvn, hq⟩ := rngVal_some hh k
  refine ⟨_, hq, by positivity, ?_, ?_⟩
  · rw [div_le_one (by norm_num)]
    exact_mod_cast hvle
  · intro hc
    have hfull : rngNat h k = some 4294967295 := by
      unfold rngNat
      rw [hc]
      decide
    rw [hfull] at hvn
    injection hvn with hv
    rw [← hv]
    norm_num

theorem c4_witness :
    ∃ q : ℚ, rngVal zeroDigest 0 = some q ∧ 0 ≤ q ∧ q ≤ 1 ∧
      (chunkAt zeroDigest (rngIndex zeroDigest 0) = "ffffffff" → q = 1) :=
  c4_amended zeroDigest 0 (by decide)

/-- C5 counterexample: no conflict rule is enforced in the final output —
the trait draws are independent and no rule set exists in the code, so a
trigger option and a "denied" option co-occur: on a concrete digest the
selection has eyes = `sharp` together with headgear = `headset`. -/
theorem c5_counterexample :
    ¬ (∀ (t d h : String), IsHexDigest h →
        (selectionFromDigest h).traits.eyes = some t →
        (selectionFromDigest h).traits.hat ≠ some d) := by
  intro H
  have heyes : (selectionFromDigest sharpHeadsetDigest).traits.eyes = some "sharp" := by
    simp only [selectionFromDigest, selectTraitsFromDigest, pickOne_rngVal]
    decide
  have hhat : (selectionFromDigest sharpHeadsetDigest).traits.hat = some "headset" := by
    simp only [selectionFromDigest, selectTraitsFromDigest, pickOne_rngVal]
    decide
  exact H "sharp" "headset" sharpHeadsetDigest (by decide) heyes hhat

/-- C5 amended: the code configures no conflict rules and applies none;
the spec's concrete rule is unenforceable vacuously, because `laser` is
not an eye option — the eye pick only ever returns `normal`, `sleepy`,
`sharp` or `undefined`, never `laser`. -/
theorem c5_amended (h : String) :
    (selectionFromDigest h).traits.eyes ≠ some "laser" ∧
    ((selectionFromDigest h).traits.eyes = some "laser" →
      (selectionFromDigest h).traits.hat ≠ some "headset") := by
  have hmem : ∀ x : String, (selectionFromDigest h).traits.eyes = some x →
      x ∈ eyeStyles := by
    intro x hx
    exact pickOne_mem hx
  constructor
  · intro hcon
    exact absurd (hmem "laser" hcon) (by decide)
  · intro hcon
    exact absurd (hmem "laser" hcon) (by decide)

theorem c5_witness :
    (selectionFromDigest zeroDigest).traits.eyes ≠ some "laser" :=
  (c5_amended zeroDigest).1

/-- C6: image composition never fails because of missing assets: with
every asset file absent, `buildSvg` still returns the well-formed document
whose layer slots are all empty except the identifier label, and
`ensureAsset` returns the empty string instead of throwing (it logs a
warning per miss, a side effect outside the model). -/
theorem c6_graceful_degradation (fid relPath fallback : String) :
    buildSvg emptyStore fid = some (buildSvgDoc "" "" "" "" "" "" "" fid) ∧
      ensureAsset emptyStore relPath fallback = "" :=
  ⟨buildSvg_emptyStore fid, ensureAsset_emptyStore relPath fallback⟩

/-- C7: the composed document lists its fragments in the fixed category
order — background first, then body (face), aura, eyes, mouth, headgear,
accessory inside the shadow group — and the identifier label is the final,
topmost element; `renderWarpCatSVG`'s output likewise ends with the title
label followed only by the closing tags. -/
theorem c7_layer_order :
    (∀ (store : Store) (fid doc : String), buildSvg store fid = some doc →
      ∃ bg face aura eyes mouth head accessory,
        doc = bsvgP0 ++ bg ++ bsvgP1 ++ face ++ layerSep ++ aura ++ layerSep ++
          eyes ++ layerSep ++ mouth ++ layerSep ++ head ++ layerSep ++ accessory ++
          bsvgP7 ++ fid ++ bsvgP8) ∧
    (∀ (h fid doc : String), renderWarpCatSVGFromDigest h fid = some doc →
      ∃ body, doc = body ++ renderTitleOpen ++ fid ++ renderTitleClose) := by
  constructor
  · intro store fid doc hdoc
    rw [buildSvg_eq] at hdoc
    rcases Option.map_eq_some'.mp hdoc with ⟨bgv, _, hdoc⟩
    unfold buildSvgDoc at hdoc
    exact ⟨_, _, _, _, _, _, _, hdoc.symm⟩
  · intro h fid doc hdoc
    rw [render_eq] at hdoc
    rcases Option.map_eq_some'.mp hdoc with ⟨pal, _, hdoc⟩
    refine ⟨renderLayers pal (selectionFromDigest h).traits, ?_⟩
    rw [← hdoc]
    rfl

theorem c7_witness :
    (∃ bg face aura eyes mouth head accessory,
      buildSvgDoc "" "" "" "" "" "" "" "12345" =
        bsvgP0 ++ bg ++ bsvgP1 ++ face ++ layerSep ++ aura ++ layerSep ++ eyes ++
          layerSep ++ mouth ++ layerSep ++ head ++ layerSep ++ accessory ++ bsvgP7 ++
          "12345" ++ bsvgP8) ∧
    (∃ body,
      renderDoc ⟨"#2e026d", "#8b5cf6", "#ffd166"⟩
          ⟨some "normal", some "none", some "none", some "none", some "short"⟩ "7" =
        body ++ renderTitleOpen ++ "7" ++ renderTitleClose) := by
  have hsel : selectionFromDigest zeroDigest =
      ⟨some ⟨"#2e026d", "#8b5cf6", "#ffd166"⟩,
       ⟨some "normal", some "none", some "none", some "none", some "short"⟩⟩ := by
    simp only [selectionFromDigest, selectTraitsFromDigest, paletteFromDigest,
      pickOne_rngVal]
    decide
  have hrender : renderWarpCatSVGFromDigest zeroDigest "7" =
      some (renderDoc ⟨"#2e026d", "#8b5cf6", "#ffd166"⟩
        ⟨some "normal", some "none", some "none", some "none", some "short"⟩ "7") := by
    unfold renderWarpCatSVGFromDigest
    rw [hsel]
  exact ⟨c7_layer_order.1 emptyStore "12345" _ (buildSvg_emptyStore "12345"),
    c7_layer_order.2 zeroDigest "7" _ hrender⟩

/-- C8 counterexample: rasterization failure is not the only externally
visible error: with a background asset present and the identifier `"abc"`,
`buildSvg` itself throws (`BigInt` SyntaxError inside `randFrom`), so the
SVG endpoint answers 500 even though the rasterizer is never involved. -/
theorem c8_counterexample :
    ¬ (∀ (store : Store) (raster : String → Option String) (fid : String),
        (∀ svg png, buildSvg store fid = some svg → raster svg = some png →
          pngEndpoint store raster fid = ImgResponse.pngBody png) ∧
        (pngEndpoint store raster fid = ImgResponse.err500 →
          ∃ svg, buildSvg store fid = some svg ∧ raster svg = none) ∧
        svgEndpoint store fid ≠ ImgResponse.err500) := by
  intro H
  exact (H oneBgStore okRaster "abc").2.2 (by decide)

/-- C8 amended: a 5xx answer arises exactly when `buildSvg` throws — which
happens precisely when the background list is non-empty and the identifier
fails to parse — or, on the PNG endpoint, when `svgToPng` fails; when
selection and composition succeed and the rasterizer returns bytes, the
response carries the image. -/
theorem c8_amended (store : Store) (raster : String → Option String) (fid : String) :
    (pngEndpoint store raster fid = ImgResponse.err500 ↔
      (buildSvg store fid = none ∨
        ∃ svg, buildSvg store fid = some svg ∧ raster svg = none)) ∧
    (svgEndpoint store fid = ImgResponse.err500 ↔ buildSvg store fid = none) ∧
    (buildSvg store fid = none ↔ bgList store ≠ [] ∧ parseBigInt fid = none) ∧
    (∀ svg png, buildSvg store fid = some svg → raster svg = some png →
      pngEndpoint store raster fid = ImgResponse.pngBody png) := by
  refine ⟨?_, ?_, buildSvg_none_iff store fid, ?_⟩
  · cases hb : buildSvg store fid with
    | none => simp [pngEndpoint, hb]
    | some svg =>
      cases hr : raster svg with
      | none => simp [pngEndpoint, hb, hr]
      | some png => simp [pngEndpoint, hb, hr]
  · cases hb : buildSvg store fid with
    | none => simp [svgEndpoint, hb]
    | some svg => simp [svgEndpoint, hb]
  · intro svg png hb hr
    simp [pngEndpoint, hb, hr]

theorem c8_witness :
    pngEndpoint emptyStore okRaster "1" =
      ImgResponse.pngBody (buildSvgDoc "" "" "" "" "" "" "" "1") :=
  (c8_amended emptyStore okRaster "1").2.2.2 _ _ (buildSvg_emptyStore "1") rfl

/-- C9: starting from a duplicate-free minted list, one `POST /frame/mint`
request either leaves the stored list unchanged (fid already recorded,
“Already Minted” page) or appends exactly that one fid, so the persisted
list never acquires duplicates and each fid appears at most once. -/
theorem c9_mint_nodup (l : List JsNum) (v : JsNum) (hn : l.Nodup) :
    (mintStep l v).2.Nodup ∧
      ((v ∈ l ∧ mintStep l v = (MintPage.already, l)) ∨
        (v ∉ l ∧ mintStep l v = (MintPage.fresh, l ++ [v]))) ∧
      ∀ x : JsNum, (mintStep l v).2.count x ≤ 1 := by
  by_cases hv : v ∈ l
  · refine ⟨?_, Or.inl ⟨hv, ?_⟩, ?_⟩
    · simpa [mintStep, hv] using hn
    · simp [mintStep, hv]
    · intro x
      have heq : (mintStep l v).2 = l := by simp [mintStep, hv]
      rw [heq, count_beq_eq]
      exact List.nodup_iff_count_le_one.mp hn x
  · have happ : (l ++ [v]).Nodup := by
      apply List.Nodup.append hn (by simp)
      intro x hx hx'
      rw [List.mem_singleton] at hx'
      subst hx'
      exact hv hx
    refine ⟨?_, Or.inr ⟨hv, ?_⟩, ?_⟩
    · simpa [mintStep, hv] using happ
    · simp [mintStep, hv]
    · intro x
      have heq : (mintStep l v).2 = l ++ [v] := by simp [mintStep, hv]
      rw [heq, count_beq_eq]
      exact List.nodup_iff_count_le_one.mp happ x

theorem c9_witness :
    (mintStep [some 1] (some 2)).2.Nodup ∧
      ((some 2 ∈ ([some 1] : List JsNum) ∧
        mintStep [some 1] (some 2) = (MintPage.already, [some 1])) ∨
       (some 2 ∉ ([some 1] : List JsNum) ∧
        mintStep [some 1] (some 2) = (MintPage.fresh, [some 1] ++ [some 2]))) ∧
      ∀ x : JsNum, (mintStep [some 1] (some 2)).2.count x ≤ 1 :=
  c9_mint_nodup [some 1] (some 2) (by decide)

/-- C10: `buildMintData` is total and shape-stable: an input parsing as a
non-negative integer below 2^256 yields the lowercase selector
`0xa0712d68` followed by exactly 64 hex digits that decode back to the
fid (74 characters in total); an input that fails to parse yields the
bare selector; no input throws. -/
theorem c10_buildMintData (s : String) :
    (∀ n : Int, parseBigInt s = some n → 0 ≤ n → n < 2 ^ 256 →
      ∃ pad : String,
        buildMintData s = MINT_SELECTOR ++ pad ∧ pad.length = 64 ∧
          (buildMintData s).length = 74 ∧
          (∀ c ∈ pad.data, jsIsHexDigit c = true) ∧
          parseIntHex pad = some n.toNat) ∧
    (parseBigInt s = none → buildMintData s = MINT_SELECTOR) := by
  constructor
  · intro n hp hn hlt
    obtain ⟨pad, heq, hlen, hhex, hval⟩ := buildMintData_spec hp hn hlt
    refine ⟨pad, heq, hlen, ?_, hhex, hval⟩
    rw [heq]
    show (MINT_SELECTOR ++ pad).data.length = 74
    rw [show (MINT_SELECTOR ++ pad).data = MINT_SELECTOR.data ++ pad.data from rfl,
      List.length_append]
    have h10 : MINT_SELECTOR.data.length = 10 := by decide
    have h64 : pad.data.length = 64 := hlen
    omega
  · exact buildMintData_fail

theorem c10_witness :
    (∃ pad : String,
      buildMintData "12345" = MINT_SELECTOR ++ pad ∧ pad.length = 64 ∧
        (buildMintData "12345").length = 74 ∧
        (∀ c ∈ pad.data, jsIsHexDigit c = true) ∧
        parseIntHex pad = some (Int.toNat 12345)) ∧
    buildMintData "abc" = MINT_SELECTOR :=
  ⟨(c10_buildMintData "12345").1 12345 (by decide) (by decide) (by norm_num),
   (c10_buildMintData "abc").2 (by decide)⟩
